import Mathlib

/-!
Shallow embedding of `src/MultiSelect.tsx` from chakra-multiselect.

The file under verification is a set of React view components layered on
Chakra UI. All decision logic lives in hooks imported from `./use-select`
(not part of `src/`); every component here is a function of its props and
of the record returned by its hook. Accordingly each component is embedded
as a pure Lean function from (props, hook return) to a structure capturing
the rendered output that the claims talk about. JavaScript truthiness
(`x || y`, `x && y`, `!!x`, optional chaining, destructuring defaults that
fire only on `undefined`) is modelled explicitly on `Option` types.
-/

/-- JS truthiness of an optional string: `undefined` and `""` are falsy,
every other string is truthy. -/
def isTruthyStr : Option String → Bool
  | none => false
  | some s => s != ""

/-- JS `a || b` where `a` is an optional string: yields `b` exactly when `a`
is `undefined` or the empty string; otherwise yields the string in `a`. -/
def tsOrStr (a : Option String) (b : String) : String :=
  match a with
  | none => b
  | some s => if s = "" then b else s

/-- JS `!!c` for an optional boolean prop (`undefined` is falsy). -/
def truthyB : Option Bool → Bool
  | none => false
  | some b => b

/-- The option record produced by the `use-select` hooks (`getOption` in
`SelectList`, the `option` field of `useSelectItem`): it carries an optional
`id`, the raw `value`, an optional display `label`, and the `selected` /
`created` flags, each possibly absent. -/
structure SelectOption where
  id : Option String
  value : String
  label : Option String
  selected : Option Bool
  created : Option Bool
  deriving DecidableEq

/-- The props record built by `optionItemProps` inside `SelectList`
(MultiSelect.tsx lines 152-165) and handed to each `SelectOptionItem`. -/
structure OptionItemProps where
  key : String
  value : String
  label : String
  selected : Option Bool
  created : Option Bool
  index : Nat
  deriving DecidableEq

/-- `optionItemProps` from `SelectList` (MultiSelect.tsx lines 152-165):
`key` is `optionItem.id || idFromOption(optionItem, 'option-')` and `label`
is `optionItem.label || labelFromValue(optionItem.value)`; `value`,
`selected` and `created` are passed through from `getOption(option)`, and
`index` is the map index. `idFromOption` and `labelFromValue` are imported
from `./use-select` and are parameters of the embedding. -/
def optionItemProps {α : Type} (getOption : α → SelectOption)
    (idFromOption : SelectOption → String → String)
    (labelFromValue : String → String)
    (option : α) (index : Nat) : OptionItemProps :=
  let optionItem := getOption option
  { key := tsOrStr optionItem.id (idFromOption optionItem "option-")
    value := optionItem.value
    label := tsOrStr optionItem.label (labelFromValue optionItem.value)
    selected := optionItem.selected
    created := optionItem.created
    index := index }

/-- The record returned by `useSelectList` as destructured by `SelectList`
(MultiSelect.tsx lines 141-149). Of the hook's `__css` style object only its
`display` entry is modelled (`cssDisplay`), since that is the key the
component itself conditionally sets before spreading `__css` over it. -/
structure UseSelectListReturn (α : Type) where
  cssDisplay : Option String
  visibleOptions : List α
  isOpen : Bool
  getOption : α → SelectOption

/-- `list.map((item, index) => f item index)` starting at index `n`. -/
def mapWithIndex {α β : Type} (f : α → Nat → β) : List α → Nat → List β
  | [], _ => []
  | a :: as, n => f a n :: mapWithIndex f as (n + 1)

/-- The rendered `<ul>` of `SelectList`: its computed `display` style entry
(`none` when absent from the final style object) and the list of
`SelectOptionItem` props rendered as children. -/
structure SelectListRender where
  display : Option String
  items : List OptionItemProps

/-- `SelectList` (MultiSelect.tsx lines 141-188): computes
`dropdownVisible = !!(isOpen && visibleOptions.length)`; the ul style is
`{listStyle, position, ...(!dropdownVisible && {display:'none'}), ...__css}`
so the hook's `__css.display`, when present, overrides the conditional
`display: 'none'`; children are `visibleOptions.map` of `SelectOptionItem`
with props from `optionItemProps`, rendered only when `dropdownVisible`. -/
def renderSelectList {α : Type}
    (idFromOption : SelectOption → String → String)
    (labelFromValue : String → String)
    (hk : UseSelectListReturn α) : SelectListRender :=
  let dropdownVisible := hk.isOpen && !hk.visibleOptions.isEmpty
  { display :=
      match hk.cssDisplay with
      | some d => some d
      | none => if dropdownVisible then none else some "none"
    items :=
      if dropdownVisible then
        mapWithIndex
          (fun item index =>
            optionItemProps hk.getOption idFromOption labelFromValue item index)
          hk.visibleOptions 0
      else [] }

/-- The part of the `useSelectItem` return that `SelectOptionItem` reads for
its visible content: the resolved `option` record (possibly `undefined`). -/
structure UseSelectItemReturn where
  option : Option SelectOption

/-- The rendered content of one `SelectOptionItem`: the displayed text and
whether the "New" tag is present. -/
structure OptionItemRender where
  text : String
  hasNewTag : Bool
  deriving DecidableEq

/-- `SelectOptionItem` (MultiSelect.tsx lines 111-139): displays
`option?.label || value` and renders the "New" `Tag` exactly when
`!!created`. -/
def renderSelectOptionItem (value : String) (label : Option String)
    (index : Nat) (selected : Option Bool) (created : Option Bool)
    (hk : UseSelectItemReturn) : OptionItemRender :=
  { text := tsOrStr (hk.option.bind SelectOption.label) value
    hasNewTag := truthyB created }

/-- The part of the `useSelectedItem` return that `SelectedItem` wires up:
the `onClick` handler, modelled by an opaque identifier. -/
structure UseSelectedItemReturn where
  onClick : Nat

/-- The rendered `Tag` of a `SelectedItem`: its label text and the handler
attached to its close button. -/
structure SelectedItemRender where
  tagLabel : String
  closeOnClick : Nat
  deriving DecidableEq

/-- `SelectedItem` (MultiSelect.tsx lines 221-238): renders a `Tag` whose
`TagLabel` is the raw `value` and whose `TagCloseButton` gets the hook's
`onClick` unchanged. -/
def renderSelectedItem (value : String) (index : Nat)
    (hk : UseSelectedItemReturn) : SelectedItemRender :=
  { tagLabel := value
    closeOnClick := hk.onClick }

/-- The record returned by `useSelectButton` as destructured by
`SelectToggleButton` (MultiSelect.tsx lines 240-248): `size` and `ariaLabel`
default only when the hook leaves them `undefined`. -/
structure UseSelectButtonReturn where
  size : Option String
  ariaLabel : Option String
  isOpen : Bool
  deriving DecidableEq

/-- The rendered `IconButton` of `SelectToggleButton`. -/
structure ToggleButtonRender where
  tabIndex : Nat
  size : String
  ariaLabel : String
  iconIsActive : Bool
  deriving DecidableEq

/-- `SelectToggleButton` (MultiSelect.tsx lines 240-270): renders an
`IconButton` with `tabIndex 0`, `size` defaulting to `'sm'`, `aria-label`
defaulting to `'toggle menu'`, and an icon whose `isActive` is the hook's
`isOpen`. -/
def renderSelectToggleButton (hk : UseSelectButtonReturn) :
    ToggleButtonRender :=
  { tabIndex := 0
    size := hk.size.getD "sm"
    ariaLabel := hk.ariaLabel.getD "toggle menu"
    iconIsActive := hk.isOpen }

/-- The record returned by `useSelectedList` as destructured by
`SelectedList` (MultiSelect.tsx lines 272-275). -/
structure UseSelectedListReturn where
  selectedItems : Option (List String)
  multi : Bool

/-- One rendered `SelectedItem` tag inside `SelectedList`. -/
structure SelectedTagRender where
  key : String
  value : String
  index : Nat
  deriving DecidableEq

/-- `SelectedList` (MultiSelect.tsx lines 272-290): when `multi` is truthy
it maps `selectedItems?.map` to `SelectedItem` tags keyed
`selected-item-<index>`; otherwise (or when `selectedItems` is undefined)
it renders no tags. -/
def renderSelectedList (hk : UseSelectedListReturn) :
    List SelectedTagRender :=
  if hk.multi then
    match hk.selectedItems with
    | some items =>
        mapWithIndex
          (fun selectedItem index =>
            { key := "selected-item-" ++ toString index
              value := selectedItem
              index := index })
          items 0
    | none => []
  else []

/-- A node of the component-composition tree assembled by `MultiSelect`. -/
inductive ViewNode where
  | selectLabel : String → ViewNode
  | selectInput : ViewNode
  | selectedList : List ViewNode → ViewNode
  | selectToggleButton : ViewNode
  | selectCombobox : ViewNode
  | selectControl : List ViewNode → ViewNode
  | selectList : ViewNode

/-- `MultiSelect` (MultiSelect.tsx lines 315-331): the children handed to
`Select`, in order: `label && <SelectLabel>{label}</SelectLabel>`, then a
`SelectControl` containing a `SelectedList` (wrapping `SelectInput`)
followed by `SelectCombobox`, then `SelectList`. -/
def renderMultiSelect (label : Option String) : List ViewNode :=
  (if isTruthyStr label then [ViewNode.selectLabel (label.getD "")] else [])
    ++ [ViewNode.selectControl
          [ViewNode.selectedList [ViewNode.selectInput],
           ViewNode.selectCombobox],
        ViewNode.selectList]

/-- `Select` (MultiSelect.tsx lines 86-102): provides context and styles and
wraps its children in a positioned div; the rendered children are exactly
the children passed in. -/
def renderSelect (children : List ViewNode) : List ViewNode :=
  children

/-- `SelectLabel` (MultiSelect.tsx lines 104-108): a label carrying the
incoming props with the hook's `labelProps` spread after them (later entries
override on lookup). -/
def renderSelectLabel (props labelProps : List (String × String)) :
    List (String × String) :=
  props ++ labelProps

/-- `SelectInput` (MultiSelect.tsx lines 214-218): an input carrying exactly
the props returned by `useSelectInput`. -/
def renderSelectInput (inputProps : List (String × String)) :
    List (String × String) :=
  inputProps

/-- `SelectCombobox` (MultiSelect.tsx lines 292-301): an HStack carrying the
hook's `__css` then the remaining hook props, containing a single
`SelectToggleButton`. -/
def renderSelectCombobox (css comboboxProps : List (String × String)) :
    List (String × String) × List ViewNode :=
  (css ++ comboboxProps, [ViewNode.selectToggleButton])

/-- `SelectControl` (MultiSelect.tsx lines 303-313): an Input-as-HStack
carrying the hook's `__css`, wrapping exactly the children passed in. -/
def renderSelectControl (css : List (String × String))
    (children : List ViewNode) :
    List (String × String) × List ViewNode :=
  (css, children)

theorem mapWithIndex_length {α β : Type} (f : α → Nat → β) :
    ∀ (l : List α) (n : Nat), (mapWithIndex f l n).length = l.length
  | [], _ => rfl
  | _ :: as, n => by
      simp [mapWithIndex, mapWithIndex_length f as (n + 1)]

theorem mapWithIndex_getElem? {α β : Type} (f : α → Nat → β) :
    ∀ (l : List α) (n i : Nat),
      (mapWithIndex f l n)[i]? = Option.map (fun a => f a (n + i)) l[i]?
  | [], _, _ => by simp [mapWithIndex]
  | a :: as, n, 0 => by simp [mapWithIndex]
  | a :: as, n, i + 1 => by
      simp [mapWithIndex, mapWithIndex_getElem? f as (n + 1) i,
        Nat.add_assoc, Nat.add_comm 1 i]

theorem tsOrStr_eq_if (a : Option String) (b : String) :
    tsOrStr a b = if isTruthyStr a = true then a.getD "" else b := by
  cases a with
  | none => rfl
  | some s =>
      by_cases h : s = ""
      · simp [tsOrStr, isTruthyStr, h]
      · simp [tsOrStr, isTruthyStr, h]

/-- C1: when the dropdown is open and `visibleOptions` is non-empty,
`SelectList` renders exactly one `SelectOptionItem` per element of
`visibleOptions`, in the same order, the item at position `i` carrying
exactly the props `optionItemProps` derives from the `i`-th option with
`index = i` — `SelectList` performs no filtering, reordering or dropping. -/
theorem selectList_renders_every_visible_option {α : Type}
    (idFromOption : SelectOption → String → String)
    (labelFromValue : String → String)
    (hk : UseSelectListReturn α)
    (hopen : hk.isOpen = true) (hne : hk.visibleOptions ≠ []) :
    (renderSelectList idFromOption labelFromValue hk).items.length
        = hk.visibleOptions.length ∧
    ∀ (i : Nat) (hi : i < hk.visibleOptions.length),
      (renderSelectList idFromOption labelFromValue hk).items[i]?
        = some (optionItemProps hk.getOption idFromOption labelFromValue
            (hk.visibleOptions.get ⟨i, hi⟩) i) := by
  obtain ⟨css, vo, io, go⟩ := hk
  cases hopen
  have hvone : vo.isEmpty = false := by
    cases vo with
    | nil => exact absurd rfl hne
    | cons a as => rfl
  constructor
  · simp [renderSelectList, hvone, mapWithIndex_length]
  · intro i hi
    simp only [renderSelectList, hvone, Bool.not_false, Bool.and_true,
      if_pos, mapWithIndex_getElem?, Nat.zero_add]
    rw [List.getElem?_eq_getElem hi]
    simp [List.get_eq_getElem]

theorem selectList_renders_every_visible_option_witness :
    (renderSelectList (fun o p => p ++ o.value) (fun v => v)
        (⟨none, ["a", "b"], true, fun v => ⟨none, v, none, none, none⟩⟩ :
          UseSelectListReturn String)).items.length = 2 ∧
    (renderSelectList (fun o p => p ++ o.value) (fun v => v)
        (⟨none, ["a", "b"], true, fun v => ⟨none, v, none, none, none⟩⟩ :
          UseSelectListReturn String)).items[1]?
      = some (optionItemProps
          (fun v => (⟨none, v, none, none, none⟩ : SelectOption))
          (fun o p => p ++ o.value) (fun v => v) "b" 1) := by
  have h := selectList_renders_every_visible_option
      (fun o p => p ++ o.value) (fun v => v)
      (⟨none, ["a", "b"], true, fun v => ⟨none, v, none, none, none⟩⟩ :
        UseSelectListReturn String) rfl (by decide)
  exact ⟨h.1, h.2 1 (by decide)⟩

/-- C8 counterexample: a hook state with `isOpen = false` whose `__css`
carries `display: 'grid'`; because `SelectList` spreads the hook's `__css`
after its own conditional `display: 'none'`, the rendered ul's display is
`'grid'`, not `'none'`, even though the dropdown is closed. -/
theorem selectList_display_none_counterexample :
    ¬ ((renderSelectList (fun o p => p ++ o.value) (fun v => v)
        (⟨some "grid", [], false, fun v => ⟨none, v, none, none, none⟩⟩ :
          UseSelectListReturn String)).display = some "none") := by
  decide

/-- C8 (amended): for every hook state where `isOpen` is false or
`visibleOptions` is empty, the rendered ul contains zero option items, and
— provided the hook's `__css` does not itself carry a `display` entry (which
is spread after the component's own style and would override it) — its
display is `'none'`; both are gated by the single `dropdownVisible` flag. -/
theorem selectList_hidden_when_closed_or_empty {α : Type}
    (idFromOption : SelectOption → String → String)
    (labelFromValue : String → String)
    (hk : UseSelectListReturn α)
    (hcss : hk.cssDisplay = none)
    (h : hk.isOpen = false ∨ hk.visibleOptions = []) :
    (renderSelectList idFromOption labelFromValue hk).display = some "none" ∧
    (renderSelectList idFromOption labelFromValue hk).items = [] := by
  obtain ⟨css, vo, io, go⟩ := hk
  cases hcss
  rcases h with h | h <;> cases h <;> simp [renderSelectList]

theorem selectList_hidden_when_closed_or_empty_witness :
    (renderSelectList (fun o p => p ++ o.value) (fun v => v)
        (⟨none, ["a"], false, fun v => ⟨none, v, none, none, none⟩⟩ :
          UseSelectListReturn String)).display = some "none" ∧
    (renderSelectList (fun o p => p ++ o.value) (fun v => v)
        (⟨none, ["a"], false, fun v => ⟨none, v, none, none, none⟩⟩ :
          UseSelectListReturn String)).items = [] :=
  selectList_hidden_when_closed_or_empty _ _ _ rfl (Or.inl rfl)

/-- C2: when `multi` is true and `selectedItems` is `[v0, ..., v(n-1)]`,
`SelectedList` renders exactly `n` `SelectedItem` tags in order, the `i`-th
with value `vi` and index `i`; when `multi` is false it renders zero tags
regardless of `selectedItems`. -/
theorem selectedList_renders_tags (l : List String)
    (hkT hkF : UseSelectedListReturn)
    (hmT : hkT.multi = true) (hsel : hkT.selectedItems = some l)
    (hmF : hkF.multi = false) :
    (renderSelectedList hkT).length = l.length ∧
    (∀ (i : Nat) (hi : i < l.length),
      (renderSelectedList hkT)[i]?
        = some { key := "selected-item-" ++ toString i
                 value := l.get ⟨i, hi⟩
                 index := i }) ∧
    renderSelectedList hkF = [] := by
  obtain ⟨siT, mT⟩ := hkT
  obtain ⟨siF, mF⟩ := hkF
  cases hmT
  cases hsel
  cases hmF
  refine ⟨?_, ?_, ?_⟩
  · simp [renderSelectedList, mapWithIndex_length]
  · intro i hi
    simp only [renderSelectedList, if_pos, mapWithIndex_getElem?,
      Nat.zero_add]
    rw [List.getElem?_eq_getElem hi]
    simp [List.get_eq_getElem]
  · simp [renderSelectedList]

theorem selectedList_renders_tags_witness :
    (renderSelectedList ⟨some ["x", "y"], true⟩).length = 2 ∧
    (renderSelectedList ⟨some ["x", "y"], true⟩)[0]?
      = some { key := "selected-item-" ++ toString 0
               value := "x"
               index := 0 } ∧
    renderSelectedList ⟨some ["x", "y"], false⟩ = [] := by
  obtain ⟨h1, h2, h3⟩ := selectedList_renders_tags ["x", "y"]
    ⟨some ["x", "y"], true⟩ ⟨some ["x", "y"], false⟩ rfl rfl rfl
  exact ⟨h1, h2 0 (by decide), h3⟩

/-- C3: the rendered `SelectOptionItem` contains the "New" tag exactly when
its `created` prop is truthy, and the `created` flag it receives from
`SelectList` is the hook's: `optionItemProps` passes
`getOption(option).created` through unchanged, computing nothing itself. -/
theorem optionItem_new_tag_iff_created {α : Type}
    (value : String) (label : Option String) (index : Nat)
    (selected created : Option Bool) (hk : UseSelectItemReturn)
    (getOption : α → SelectOption)
    (idFromOption : SelectOption → String → String)
    (labelFromValue : String → String) (o : α) (i : Nat) :
    ((renderSelectOptionItem value label index selected created hk).hasNewTag
        = true ↔ truthyB created = true) ∧
    (optionItemProps getOption idFromOption labelFromValue o i).created
        = (getOption o).created :=
  ⟨Iff.rfl, rfl⟩

/-- C4: every component in the file is pure view composition — two renders
of the same component with equal props and equal hook return values produce
equal output, for Select, SelectLabel, SelectOptionItem, SelectList,
SelectInput, SelectedItem, SelectToggleButton, SelectedList, SelectCombobox,
SelectControl and MultiSelect alike. -/
theorem components_render_deterministically {α : Type}
    (sc1 sc2 : List ViewNode)
    (lp1 lp2 lq1 lq2 : List (String × String))
    (ov1 ov2 : String) (ol1 ol2 : Option String) (oi1 oi2 : Nat)
    (os1 os2 oc1 oc2 : Option Bool) (oh1 oh2 : UseSelectItemReturn)
    (f1 f2 : SelectOption → String → String) (g1 g2 : String → String)
    (lh1 lh2 : UseSelectListReturn α)
    (ip1 ip2 : List (String × String))
    (sv1 sv2 : String) (sj1 sj2 : Nat) (sh1 sh2 : UseSelectedItemReturn)
    (bh1 bh2 : UseSelectButtonReturn)
    (dh1 dh2 : UseSelectedListReturn)
    (cb1 cb2 cq1 cq2 : List (String × String))
    (cc1 cc2 : List (String × String)) (cn1 cn2 : List ViewNode)
    (ml1 ml2 : Option String)
    (h1 : sc1 = sc2) (h2 : lp1 = lp2) (h3 : lq1 = lq2)
    (h4 : ov1 = ov2) (h5 : ol1 = ol2) (h6 : oi1 = oi2) (h7 : os1 = os2)
    (h8 : oc1 = oc2) (h9 : oh1 = oh2)
    (h10 : f1 = f2) (h11 : g1 = g2) (h12 : lh1 = lh2)
    (h13 : ip1 = ip2)
    (h14 : sv1 = sv2) (h15 : sj1 = sj2) (h16 : sh1 = sh2)
    (h17 : bh1 = bh2) (h18 : dh1 = dh2)
    (h19 : cb1 = cb2) (h20 : cq1 = cq2)
    (h21 : cc1 = cc2) (h22 : cn1 = cn2) (h23 : ml1 = ml2) :
    renderSelect sc1 = renderSelect sc2 ∧
    renderSelectLabel lp1 lq1 = renderSelectLabel lp2 lq2 ∧
    renderSelectOptionItem ov1 ol1 oi1 os1 oc1 oh1
        = renderSelectOptionItem ov2 ol2 oi2 os2 oc2 oh2 ∧
    renderSelectList f1 g1 lh1 = renderSelectList f2 g2 lh2 ∧
    renderSelectInput ip1 = renderSelectInput ip2 ∧
    renderSelectedItem sv1 sj1 sh1 = renderSelectedItem sv2 sj2 sh2 ∧
    renderSelectToggleButton bh1 = renderSelectToggleButton bh2 ∧
    renderSelectedList dh1 = renderSelectedList dh2 ∧
    renderSelectCombobox cb1 cq1 = renderSelectCombobox cb2 cq2 ∧
    renderSelectControl cc1 cn1 = renderSelectControl cc2 cn2 ∧
    renderMultiSelect ml1 = renderMultiSelect ml2 := by
  subst h1 h2 h3 h4 h5 h6 h7 h8 h9 h10 h11 h12 h13 h14 h15 h16 h17 h18
  subst h19 h20 h21 h22 h23
  exact ⟨rfl, rfl, rfl, rfl, rfl, rfl, rfl, rfl, rfl, rfl, rfl⟩

theorem components_render_deterministically_witness :
    renderSelect [] = renderSelect [] ∧
    renderSelectLabel [] [] = renderSelectLabel [] [] ∧
    renderSelectOptionItem "a" none 0 none none ⟨none⟩
        = renderSelectOptionItem "a" none 0 none none ⟨none⟩ ∧
    renderSelectList (fun o p => p ++ o.value) (fun v => v)
        (⟨none, [], false, fun v => ⟨none, v, none, none, none⟩⟩ :
          UseSelectListReturn String)
        = renderSelectList (fun o p => p ++ o.value) (fun v => v)
        (⟨none, [], false, fun v => ⟨none, v, none, none, none⟩⟩ :
          UseSelectListReturn String) ∧
    renderSelectInput [] = renderSelectInput [] ∧
    renderSelectedItem "a" 0 ⟨7⟩ = renderSelectedItem "a" 0 ⟨7⟩ ∧
    renderSelectToggleButton ⟨none, none, false⟩
        = renderSelectToggleButton ⟨none, none, false⟩ ∧
    renderSelectedList ⟨none, false⟩ = renderSelectedList ⟨none, false⟩ ∧
    renderSelectCombobox [] [] = renderSelectCombobox [] [] ∧
    renderSelectControl [] [] = renderSelectControl [] [] ∧
    renderMultiSelect none = renderMultiSelect none :=
  components_render_deterministically
    [] [] [] [] [] [] "a" "a" none none 0 0 none none none none ⟨none⟩ ⟨none⟩
    (fun o p => p ++ o.value) (fun o p => p ++ o.value)
    (fun v => v) (fun v => v)
    (⟨none, [], false, fun v => ⟨none, v, none, none, none⟩⟩ :
      UseSelectListReturn String)
    (⟨none, [], false, fun v => ⟨none, v, none, none, none⟩⟩ :
      UseSelectListReturn String)
    [] [] "a" "a" 0 0 ⟨7⟩ ⟨7⟩ ⟨none, none, false⟩ ⟨none, none, false⟩
    ⟨none, false⟩ ⟨none, false⟩ [] [] [] [] [] [] [] [] none none
    rfl rfl rfl rfl rfl rfl rfl rfl rfl rfl rfl rfl rfl rfl rfl rfl rfl rfl
    rfl rfl rfl rfl rfl

/-- C5: `MultiSelect` assembles the widget purely by composing the named
components: a `SelectLabel` carrying the label text exactly when the `label`
prop is truthy, then a `SelectControl` containing a `SelectedList` (which
wraps a `SelectInput`) followed by a `SelectCombobox`, then a
`SelectList`. -/
theorem multiSelect_composition (lt lf : Option String)
    (ht : isTruthyStr lt = true) (hf : isTruthyStr lf = false) :
    renderMultiSelect lt
        = [ViewNode.selectLabel (lt.getD ""),
           ViewNode.selectControl
             [ViewNode.selectedList [ViewNode.selectInput],
              ViewNode.selectCombobox],
           ViewNode.selectList] ∧
    renderMultiSelect lf
        = [ViewNode.selectControl
             [ViewNode.selectedList [ViewNode.selectInput],
              ViewNode.selectCombobox],
           ViewNode.selectList] := by
  constructor
  · simp [renderMultiSelect, ht]
  · simp [renderMultiSelect, hf]

theorem multiSelect_composition_witness :
    renderMultiSelect (some "Fruits")
        = [ViewNode.selectLabel "Fruits",
           ViewNode.selectControl
             [ViewNode.selectedList [ViewNode.selectInput],
              ViewNode.selectCombobox],
           ViewNode.selectList] ∧
    renderMultiSelect none
        = [ViewNode.selectControl
             [ViewNode.selectedList [ViewNode.selectInput],
              ViewNode.selectCombobox],
           ViewNode.selectList] :=
  multiSelect_composition (some "Fruits") none (by decide) (by decide)

/-- C6: `SelectedItem` renders a `Tag` whose label is exactly the `value`
prop and whose close button's onClick is exactly the `onClick` returned by
`useSelectedItem` — it adds no removal logic of its own. -/
theorem selectedItem_wires_hook_handler (value : String) (index : Nat)
    (hk : UseSelectedItemReturn) :
    (renderSelectedItem value index hk).tagLabel = value ∧
    (renderSelectedItem value index hk).closeOnClick = hk.onClick :=
  ⟨rfl, rfl⟩

/-- C7: `SelectToggleButton` renders an `IconButton` with `tabIndex 0`,
aria-label equal to the hook's `ariaLabel` defaulting to `'toggle menu'`
when the hook provides none, icon `isActive` equal to the hook's `isOpen`,
and `size` defaulting to `'sm'`. -/
theorem toggleButton_render (hk : UseSelectButtonReturn) :
    (renderSelectToggleButton hk).tabIndex = 0 ∧
    (renderSelectToggleButton hk).ariaLabel
        = hk.ariaLabel.getD "toggle menu" ∧
    (renderSelectToggleButton hk).iconIsActive = hk.isOpen ∧
    (renderSelectToggleButton hk).size = hk.size.getD "sm" :=
  ⟨rfl, rfl, rfl, rfl⟩

/-- C9: `SelectOptionItem` displays `option.label` when the hook's resolved
option has a truthy label and otherwise falls back to the raw `value` prop;
in particular an option whose label is the empty string displays the value,
and so does an undefined option. -/
theorem optionItem_label_fallback (value : String) (label : Option String)
    (index : Nat) (selected created : Option Bool) (o : SelectOption) :
    (renderSelectOptionItem value label index selected created ⟨some o⟩).text
        = (if isTruthyStr o.label = true then o.label.getD "" else value) ∧
    (renderSelectOptionItem value label index selected created
        ⟨some { o with label := some "" }⟩).text = value ∧
    (renderSelectOptionItem value label index selected created ⟨none⟩).text
        = value := by
  refine ⟨?_, ?_, rfl⟩
  · simp [renderSelectOptionItem, tsOrStr_eq_if]
  · simp [renderSelectOptionItem, tsOrStr]

/-- C10: `optionItemProps` derives `key` as `optionItem.id` when that id is
truthy and otherwise as `idFromOption(optionItem, 'option-')`, and `label`
as `optionItem.label` when truthy and otherwise as
`labelFromValue(optionItem.value)`; both fallbacks fire on any falsy value,
the empty string included, as the last two conjuncts exhibit. -/
theorem optionItemProps_key_label_fallbacks {α : Type}
    (getOption : α → SelectOption)
    (idFromOption : SelectOption → String → String)
    (labelFromValue : String → String) (o : α) (i : Nat) :
    (optionItemProps getOption idFromOption labelFromValue o i).key
        = (if isTruthyStr (getOption o).id = true
           then (getOption o).id.getD ""
           else idFromOption (getOption o) "option-") ∧
    (optionItemProps getOption idFromOption labelFromValue o i).label
        = (if isTruthyStr (getOption o).label = true
           then (getOption o).label.getD ""
           else labelFromValue (getOption o).value) ∧
    (optionItemProps
        (fun a => { getOption a with id := some "", label := some "" })
        idFromOption labelFromValue o i).key
        = idFromOption
            { getOption o with id := some "", label := some "" } "option-" ∧
    (optionItemProps
        (fun a => { getOption a with id := some "", label := some "" })
        idFromOption labelFromValue o i).label
        = labelFromValue (getOption o).value := by
  refine ⟨?_, ?_, ?_, ?_⟩
  · simp [optionItemProps, tsOrStr_eq_if]
  · simp [optionItemProps, tsOrStr_eq_if]
  · simp [optionItemProps, tsOrStr]
  · simp [optionItemProps, tsOrStr]
